import Mathlib

/-!
Shallow embedding of the `Engine` class of `src/engine/index.ts`
(age-of-towns): an isometric tile-map viewer.

JavaScript numbers are modelled as rationals (`ℚ`): every quantity the
claims touch is produced by `+ - *`, division by the constants 66 / 33,
`Math.floor` and `Math.ceil`, all of which are exact on the inputs involved.
Pixel-producing calls (`ctx.drawImage`) and listener invocations are
modelled as entries appended to explicit logs, so a run of the engine is a
pure function from an input-event list to a final state plus logs.
-/

namespace Engine

/-- `private tileWidth = 132`. -/
def tileWidth : ℚ := 132

/-- `private tileHeight = 65`. -/
def tileHeight : ℚ := 65

/-- `private halfTileWidth = Math.ceil(this.tileWidth / 2)`. -/
def halfTileWidth : ℚ := ⌈tileWidth / 2⌉

/-- `private halfTileHeight = Math.ceil(this.tileHeight / 2)`. -/
def halfTileHeight : ℚ := ⌈tileHeight / 2⌉

theorem halfTileWidth_eq : halfTileWidth = 66 := by
  simp [halfTileWidth, tileWidth]
  norm_num

theorem halfTileHeight_eq : halfTileHeight = 33 := by
  have h : ⌈tileHeight / 2⌉ = (33 : ℤ) := by
    rw [Int.ceil_eq_iff]
    norm_num [tileHeight]
  simp [halfTileHeight, h]

/-- `tileCoordsToXY(tx, ty)`: screen position of tile `(tx, ty)`
(before the pan offset is applied). -/
def tileCoordsToXY (tx ty : ℚ) : ℚ × ℚ :=
  ((tx - ty) * halfTileWidth, (tx + ty) * halfTileHeight)

/-- `XYToTileCoords(x, y)`: tile indices under the (pan-adjusted) screen
point `(x, y)`; `Math.floor` is `Int.floor` on exact rationals. -/
def XYToTileCoords (x y : ℚ) : ℤ × ℤ :=
  (⌊(x / halfTileWidth + y / halfTileHeight) / 2 - 1/2⌋,
   ⌊(y / halfTileHeight - x / halfTileWidth) / 2 + 1/2⌋)

/-- Round trip of the two coordinate transforms on integer tile indices:
the `- 0.5` in `XYToTileCoords` shifts the picked tile index down by one. -/
theorem XYToTileCoords_tileCoordsToXY (tx ty : ℤ) :
    XYToTileCoords ((tileCoordsToXY tx ty).1) ((tileCoordsToXY tx ty).2) =
      (tx - 1, ty) := by
  have hw : halfTileWidth ≠ 0 := by rw [halfTileWidth_eq]; norm_num
  have hh : halfTileHeight ≠ 0 := by rw [halfTileHeight_eq]; norm_num
  unfold XYToTileCoords tileCoordsToXY
  have e1 : ((tx : ℚ) - ty) * halfTileWidth / halfTileWidth = (tx : ℚ) - ty := by
    field_simp
  have e2 : ((tx : ℚ) + ty) * halfTileHeight / halfTileHeight = (tx : ℚ) + ty := by
    field_simp
  rw [e1, e2]
  refine Prod.ext ?_ ?_
  · have e3 : (((tx : ℚ) - ty) + ((tx : ℚ) + ty)) / 2 - 1/2 = ((tx - 1 : ℤ) : ℚ) + 1/2 := by
      push_cast; ring
    rw [e3, Int.floor_int_add]
    norm_num
  · have e3 : (((tx : ℚ) + ty) - ((tx : ℚ) - ty)) / 2 + 1/2 = ((ty : ℤ) : ℚ) + 1/2 := by
      ring
    rw [e3, Int.floor_int_add]
    norm_num

/-- C1 (counterexample): the claimed inverse property fails at tile (1, 0):
`tileCoordsToXY 1 0 = (66, 33)` but `XYToTileCoords 66 33 = (0, 0) ≠ (1, 0)`,
contradicting both the general round-trip claim and the concrete scenario
`screenToTile(66,33) = (1,0)`. -/
theorem c1_spec_roundtrip_fails_at_one_zero :
    tileCoordsToXY 1 0 = (66, 33) ∧
      XYToTileCoords 66 33 = (0, 0) ∧ ((0 : ℤ), (0 : ℤ)) ≠ ((1 : ℤ), (0 : ℤ)) := by
  refine ⟨?_, ?_, by decide⟩
  · norm_num [tileCoordsToXY, halfTileWidth_eq, halfTileHeight_eq]
  · norm_num [XYToTileCoords, halfTileWidth_eq, halfTileHeight_eq, Prod.ext_iff]

/-- C1 (amended): for every pair of tile indices (tx, ty) — in particular for
tx, ty in [−10000, 10000] — applying `XYToTileCoords` to the result of
`tileCoordsToXY` returns exactly `(tx − 1, ty)`, one less in the first
component; with hw = 66 and hh = 33, `tileCoordsToXY 0 0 = (0,0)`,
`tileCoordsToXY 1 0 = (66,33)`, and `XYToTileCoords 66 33 = (0, 0)`. -/
theorem c1_roundtrip_shifted :
    (∀ tx ty : ℤ,
        XYToTileCoords ((tileCoordsToXY tx ty).1) ((tileCoordsToXY tx ty).2) =
          (tx - 1, ty)) ∧
      tileCoordsToXY 0 0 = (0, 0) ∧ tileCoordsToXY 1 0 = (66, 33) ∧
        XYToTileCoords 66 33 = (0, 0) := by
  refine ⟨XYToTileCoords_tileCoordsToXY, ?_, ?_, ?_⟩
  · norm_num [tileCoordsToXY]
  · norm_num [tileCoordsToXY, halfTileWidth_eq, halfTileHeight_eq]
  · norm_num [XYToTileCoords, halfTileWidth_eq, halfTileHeight_eq, Prod.ext_iff]

/-- `Pointer.type`: `'mouse' | 'touch'`. -/
inductive PointerType
  | mouse
  | touch
deriving DecidableEq, Repr

/-- `interface Pointer { type; x; y }`, canvas-local pixel coordinates. -/
structure Pointer where
  type : PointerType
  x : ℚ
  y : ℚ
deriving DecidableEq, Repr

/-- The slice of an `HTMLImageElement` the engine reads: readiness flag,
natural width, and the drawn dimensions. -/
structure Image where
  complete : Bool
  naturalWidth : ℕ
  width : ℚ
  height : ℚ
deriving DecidableEq, Repr

/-- A cell/layer submission to `drawTile`: the asset name looked up in
`imageAssets` plus the (un-panned) screen position. -/
structure DrawReq where
  name : String
  x : ℚ
  y : ℚ
deriving DecidableEq, Repr

/-- An actual `ctx.drawImage(image, dx, dy)` call. -/
structure PixelCmd where
  img : Image
  dx : ℚ
  dy : ℚ
deriving DecidableEq, Repr

/-- The fields of `MouseEvent` the engine reads. -/
structure MouseEvent where
  pageX : ℚ
  pageY : ℚ
  button : ℕ
deriving DecidableEq, Repr

/-- The fields of `TouchEvent` the engine reads: the page coordinates of
each touch still listed in `targetTouches`. -/
structure TouchEvent where
  targetTouches : List (ℚ × ℚ)
deriving DecidableEq, Repr

/-- The mutable fields of the `Engine` class, plus the two observation
logs: `emitLog` records each `emit('tileClicked', tx, ty)` notification,
and `events` is the `tileClicked` listener set (modelled as its
insertion-ordered element list; listeners are identified by `ℕ` ids). -/
structure EngineState where
  mapOffsetX : ℚ
  mapOffsetY : ℚ
  selectedTileX : ℤ
  selectedTileY : ℤ
  hoveredTileX : ℤ
  hoveredTileY : ℤ
  imageAssets : String → Option Image
  initialPointers : Option (List Pointer)
  pointers : List Pointer
  pointerDown : Bool
  map : List (List (List String))
  canvasWidth : ℚ
  canvasHeight : ℚ
  canvasOffsetLeft : ℚ
  canvasOffsetTop : ℚ
  events : List ℕ
  emitLog : List (ℤ × ℤ)

/-- The state after the constructor ran: offsets zero, no selection/hover
(sentinel −1), no pointers, empty registry/map/listeners; the canvas sized
to the body dimensions, at the given page offset. -/
def initState (bodyW bodyH offsetL offsetT : ℚ) : EngineState where
  mapOffsetX := 0
  mapOffsetY := 0
  selectedTileX := -1
  selectedTileY := -1
  hoveredTileX := -1
  hoveredTileY := -1
  imageAssets := fun _ => none
  initialPointers := none
  pointers := []
  pointerDown := false
  map := []
  canvasWidth := bodyW
  canvasHeight := bodyH
  canvasOffsetLeft := offsetL
  canvasOffsetTop := offsetT
  events := []
  emitLog := []

/-- `registerImageAsset(name, path)`: overwrites the registry entry; the
loaded image is supplied explicitly since loading is external. -/
def registerImageAsset (s : EngineState) (name : String) (img : Image) :
    EngineState :=
  { s with imageAssets := fun n => if n = name then some img else s.imageAssets n }

/-- `private handlePointers(pointers)`: replace the pointer list, snapshot
`initialPointers` on a fresh press, and pan by the primary-pointer delta
while the pointer is down. -/
def handlePointers (s : EngineState) (ps : List Pointer) : EngineState :=
  let oldPointers := s.pointers
  let s1 := { s with pointers := ps }
  let s2 :=
    if s1.initialPointers = none ∧ s1.pointerDown then
      { s1 with initialPointers := some s1.pointers }
    else s1
  match s2.pointers.head?, oldPointers.head? with
  | some p, some op =>
    if s2.pointerDown then
      { s2 with
          mapOffsetX := s2.mapOffsetX + (p.x - op.x)
          mapOffsetY := s2.mapOffsetY + (p.y - op.y) }
    else s2
  | _, _ => s2

/-- `private handleTileClick()`: `Math.sqrt(dx² + dy²) > 10` is modelled
exactly as `dx² + dy² > 100`; `this.emit('tileClicked', tx, ty)` is
modelled by appending the notification to `emitLog`.  The source indexes
`this.pointers[0]` and `this.initialPointers[0]` directly (both call sites
guarantee they exist); the fall-through arm returns the state unchanged. -/
def handleTileClick (s : EngineState) : EngineState :=
  match s.initialPointers with
  | none => s
  | some initial =>
    match s.pointers.head?, initial.head? with
    | some p, some ip =>
      if (p.x - ip.x) ^ 2 + (p.y - ip.y) ^ 2 > 100 then s
      else
        let tileCoords := XYToTileCoords (p.x - s.mapOffsetX) (p.y - s.mapOffsetY)
        { s with
            selectedTileX := tileCoords.1
            selectedTileY := tileCoords.2
            emitLog := s.emitLog ++ [(tileCoords.1, tileCoords.2)] }
    | _, _ => s

/-- `private mouseXY(e)`: unified move handler for mouse events. -/
def mouseXY (s : EngineState) (e : MouseEvent) : EngineState :=
  let s1 := handlePointers s
    [⟨.mouse, e.pageX - s.canvasOffsetLeft, e.pageY - s.canvasOffsetTop⟩]
  let s2 :=
    match s1.pointers.head? with
    | some p =>
      let tileCoords := XYToTileCoords (p.x - s1.mapOffsetX) (p.y - s1.mapOffsetY)
      { s1 with hoveredTileX := tileCoords.1, hoveredTileY := tileCoords.2 }
    | none => s1
  if s2.pointerDown then s2
  else
    let s3 :=
      if s2.pointers.head?.isSome ∧ e.button = 0 then handleTileClick s2 else s2
    { s3 with pointers := [], initialPointers := none }

/-- `private touchXY(e)`: unified move handler for touch events. -/
def touchXY (s : EngineState) (e : TouchEvent) : EngineState :=
  let s1 := handlePointers s
    (e.targetTouches.map fun t =>
      ⟨.touch, t.1 - s.canvasOffsetLeft, t.2 - s.canvasOffsetTop⟩)
  let s2 :=
    match s1.pointers.head? with
    | some p =>
      let tileCoords := XYToTileCoords (p.x - s1.mapOffsetX) (p.y - s1.mapOffsetY)
      { s1 with hoveredTileX := tileCoords.1, hoveredTileY := tileCoords.2 }
    | none => s1
  if s2.pointerDown then s2
  else
    let s3 := if s2.pointers.head?.isSome then handleTileClick s2 else s2
    { s3 with pointers := [], initialPointers := none }

/-- `private mouseDown(e)`. -/
def mouseDown (s : EngineState) (e : MouseEvent) : EngineState :=
  mouseXY { s with pointerDown := true } e

/-- `private mouseUp(e)`. -/
def mouseUp (s : EngineState) (e : MouseEvent) : EngineState :=
  mouseXY { s with pointerDown := false } e

/-- `private touchDown(e)`. -/
def touchDown (s : EngineState) (e : TouchEvent) : EngineState :=
  touchXY { s with pointerDown := true } e

/-- `private touchUp(e)`: `pointerDown` is released only when no touches
remain on the target. -/
def touchUp (s : EngineState) (e : TouchEvent) : EngineState :=
  touchXY
    (if e.targetTouches.length = 0 then { s with pointerDown := false } else s) e

/-- One raw browser input event, as dispatched to the listeners the
constructor installs. -/
inductive InputEvent
  | mouseDown (e : MouseEvent)
  | mouseMove (e : MouseEvent)
  | mouseUp (e : MouseEvent)
  | touchStart (e : TouchEvent)
  | touchMove (e : TouchEvent)
  | touchEnd (e : TouchEvent)

/-- Dispatch one input event to its handler (`mousemove ↦ mouseXY`,
`touchmove ↦ touchXY`, as registered in the constructor). -/
def step (s : EngineState) : InputEvent → EngineState
  | .mouseDown e => Engine.mouseDown s e
  | .mouseMove e => Engine.mouseXY s e
  | .mouseUp e => Engine.mouseUp s e
  | .touchStart e => Engine.touchDown s e
  | .touchMove e => Engine.touchXY s e
  | .touchEnd e => Engine.touchUp s e

/-- Run a list of input events in order. -/
def runEvents (s : EngineState) (evs : List InputEvent) : EngineState :=
  evs.foldl step s

/-- `private drawTile(image, x, y)`: silently skip a missing, not yet
complete, or zero-natural-width image, otherwise issue one
`ctx.drawImage` call at the pan-adjusted position. -/
def drawTile (s : EngineState) (image : Option Image) (x y : ℚ) :
    List PixelCmd :=
  match image with
  | none => []
  | some img =>
    if img.complete = false ∨ img.naturalWidth = 0 then []
    else
      [⟨img, s.mapOffsetX + x + (tileWidth - img.width),
             s.mapOffsetY + y + (tileHeight - img.height)⟩]

/-- `private isXYVisible(x, y)`: the culling test of the render loop. -/
def isXYVisible (s : EngineState) (x y : ℚ) : Prop :=
  x + s.mapOffsetX ≤ s.canvasWidth ∧
    x + tileWidth + s.mapOffsetX > 0 ∧
      y + s.mapOffsetY ≤ s.canvasHeight ∧
        y + tileHeight + s.mapOffsetY > 0

instance (s : EngineState) (x y : ℚ) : Decidable (isXYVisible s x y) := by
  unfold isXYVisible
  infer_instance

/-- The inner `i` loop of `render` for one visible cell `(x, y)` with tile
stack `stack` at screen position `(cx, cy)`: each layer is submitted in
order, and right after layer 0 of the hovered cell the `selection` /
`selection_down` overlay is submitted. -/
def renderCell (s : EngineState) (x y : ℕ) (stack : List String)
    (cx cy : ℚ) : List DrawReq :=
  (List.range stack.length).flatMap fun i =>
    ⟨stack.getD i "", cx, cy⟩ ::
      (if i = 0 ∧ (x : ℤ) = s.hoveredTileX ∧ (y : ℤ) = s.hoveredTileY then
        [⟨if s.pointerDown = false then "selection" else "selection_down", cx, cy⟩]
      else [])

/-- The drawing portion of `private render()`: the submissions it makes to
`drawTile`, in order.  (Surface resizing, `clearRect` and the
`requestAnimationFrame` rescheduling surround this pass in the source.) -/
def render (s : EngineState) : List DrawReq :=
  (List.range s.map.length).flatMap fun x =>
    (List.range ((s.map.getD x []).length)).flatMap fun y =>
      let coords := tileCoordsToXY x y
      if isXYVisible s coords.1 coords.2 then
        renderCell s x y ((s.map.getD x []).getD y []) coords.1 coords.2
      else []

/-- Resolve a list of draw submissions against the asset registry: each
submission becomes the `ctx.drawImage` calls `drawTile` makes for it. -/
def processRequests (s : EngineState) (reqs : List DrawReq) : List PixelCmd :=
  reqs.flatMap fun r => drawTile s (s.imageAssets r.name) r.x r.y

/-- One frame's actual `ctx.drawImage` calls. -/
def renderPixels (s : EngineState) : List PixelCmd :=
  processRequests s (render s)

/-- `on(eventType, listener)`: `Set.add` keeps insertion order and never
duplicates an existing member. -/
def «on» {α : Type} [DecidableEq α] (listeners : List α) (l : α) : List α :=
  if l ∈ listeners then listeners else listeners ++ [l]

/-- `off(eventType, listener)`: `Set.delete`. -/
def off {α : Type} [DecidableEq α] (listeners : List α) (l : α) : List α :=
  listeners.erase l

/-- `private emit(eventType, ...args)`: the synchronous listener
invocations `for (const listener of set) listener.apply(this, args)`
makes, in set-iteration (= insertion) order, for a `tileClicked`
notification carrying `(tx, ty)`. -/
def emit {α : Type} (listeners : List α) (tx ty : ℤ) : List (α × ℤ × ℤ) :=
  listeners.map fun l => (l, tx, ty)

/-- C7: for every listener value and subscriber-set state (the set holds
no duplicates), calling `off` twice with the same listener gives the same
set as calling it once, calling `off` for a listener never subscribed is a
no-op, and an `off` call never removes any other subscribed listener. -/
theorem c7_off_idempotent_unsubscribe {α : Type} [DecidableEq α]
    (listeners : List α) (l : α) (hnd : listeners.Nodup) :
    «off» («off» listeners l) l = «off» listeners l ∧
      (l ∉ listeners → «off» listeners l = listeners) ∧
      ∀ x ∈ listeners, x ≠ l → x ∈ «off» listeners l := by
  refine ⟨?_, fun h => List.erase_of_not_mem h, fun x hx hxl =>
    (List.mem_erase_of_ne hxl).2 hx⟩
  have h : l ∉ listeners.erase l := fun h => (hnd.mem_erase_iff.1 h).1 rfl
  exact List.erase_of_not_mem h

/-- C7 witness: instantiation at `listeners = [1, 2]`, `l = 2` and the
never-subscribed `l = 5`. -/
theorem c7_off_idempotent_unsubscribe_witness :
    «off» («off» [1, 2] 2) 2 = «off» [1, 2] 2 ∧
      ((5 : ℕ) ∉ [1, 2] → «off» [1, 2] 5 = [1, 2]) ∧
      ∀ x ∈ [1, 2], x ≠ 2 → x ∈ «off» [1, 2] (2 : ℕ) :=
  ⟨(c7_off_idempotent_unsubscribe [1, 2] 2 (by decide)).1,
   (c7_off_idempotent_unsubscribe [1, 2] 5 (by decide)).2.1,
   (c7_off_idempotent_unsubscribe [1, 2] 2 (by decide)).2.2⟩

/-- Counting invocations of one listener in an `emit` run counts that
listener in the subscriber list. -/
theorem count_emit {α : Type} [DecidableEq α]
    (listeners : List α) (l : α) (tx ty : ℤ) :
    (emit listeners tx ty).count (l, tx, ty) = listeners.count l := by
  induction listeners with
  | nil => rfl
  | cons a t ih =>
    simp only [emit, List.map_cons] at ih ⊢
    rw [List.count_cons, List.count_cons, ih]
    simp [Prod.ext_iff]

/-- C8: `emit` invokes every currently subscribed listener exactly once
(the subscriber set holds no duplicates), in subscription order — the
i-th invocation goes to the i-th subscriber — passing the tile indices,
and emitting with zero subscribers invokes nothing. -/
theorem c8_emit_order_args {α : Type} [DecidableEq α]
    (listeners : List α) (tx ty : ℤ) (hnd : listeners.Nodup) :
    (∀ l ∈ listeners, (emit listeners tx ty).count (l, tx, ty) = 1) ∧
      (∀ i : ℕ, (emit listeners tx ty).get? i =
        (listeners.get? i).map fun l => (l, tx, ty)) ∧
      emit ([] : List α) tx ty = [] := by
  refine ⟨fun l hl => ?_, fun i => ?_, rfl⟩
  · rw [count_emit]
    exact List.count_eq_one_of_mem hnd hl
  · simp [emit]

/-- C8 witness: two subscribers `[7, 9]` and tile `(3, −2)`. -/
theorem c8_emit_order_args_witness :
    (∀ l ∈ [7, 9], (emit [7, 9] 3 (-2)).count (l, 3, -2) = 1) ∧
      (∀ i : ℕ, (emit [7, 9] 3 (-2)).get? i =
        (([7, 9] : List ℕ).get? i).map fun l => (l, 3, -2)) ∧
      emit ([] : List ℕ) 3 (-2) = [] :=
  c8_emit_order_args [7, 9] 3 (-2) (by decide)

/-- C10: subscribing the same listener twice via `on` leaves the set as
after one subscription; an emit then invokes the listener exactly once;
and a single `off` removes it entirely. -/
theorem c10_on_idempotent {α : Type} [DecidableEq α]
    (listeners : List α) (l : α) (tx ty : ℤ) (hnd : listeners.Nodup) :
    «on» («on» listeners l) l = «on» listeners l ∧
      (emit («on» («on» listeners l) l) tx ty).count (l, tx, ty) = 1 ∧
      l ∉ «off» («on» («on» listeners l) l) l := by
  have hmem : l ∈ «on» listeners l := by
    unfold «on»
    split
    · assumption
    · simp
  have hidem : «on» («on» listeners l) l = «on» listeners l := by
    have h1 : l ∈ «on» listeners l := hmem
    unfold «on» at h1 ⊢
    rw [if_pos h1]
  have hnd2 : («on» listeners l).Nodup := by
    unfold «on»
    split
    · exact hnd
    · next h => simpa using List.Nodup.append hnd (by simp) (by simpa using h)
  refine ⟨hidem, ?_, ?_⟩
  · rw [hidem, count_emit]
    exact List.count_eq_one_of_mem hnd2 hmem
  · rw [hidem]
    intro h
    exact (hnd2.mem_erase_iff.1 h).1 rfl

/-- C10 witness: subscribers `[4]`, listener `6`, tile `(0, 1)`. -/
theorem c10_on_idempotent_witness :
    «on» («on» [4] 6) 6 = «on» [4] 6 ∧
      (emit («on» («on» [4] 6) 6) 0 1).count ((6 : ℕ), 0, 1) = 1 ∧
      (6 : ℕ) ∉ «off» («on» («on» [4] 6) 6) 6 :=
  c10_on_idempotent [4] 6 0 1 (by decide)

/-- C6: a draw request whose asset is missing from the registry, not yet
complete, or of zero natural width is a silent no-op — `drawTile` issues
no `ctx.drawImage` call — and the frame's remaining requests resolve
exactly as they would without it. -/
theorem c6_not_ready_draw_is_noop (s : EngineState) (image : Option Image)
    (x y : ℚ) (reqs1 reqs2 : List DrawReq) (r : DrawReq)
    (h : image = none ∨
      ∃ img, image = some img ∧ (img.complete = false ∨ img.naturalWidth = 0))
    (hr : s.imageAssets r.name = image) :
    drawTile s image x y = [] ∧
      processRequests s (reqs1 ++ r :: reqs2) =
        processRequests s reqs1 ++ processRequests s reqs2 := by
  have hnoop : ∀ u v : ℚ, drawTile s image u v = [] := by
    intro u v
    rcases h with h | ⟨img, rfl, h⟩
    · rw [h]; rfl
    · rcases h with h | h <;> simp [drawTile, h]
  refine ⟨hnoop x y, ?_⟩
  unfold processRequests
  rw [List.flatMap_append, List.flatMap_cons, hr, hnoop r.x r.y]
  simp

/-- C6 witness: a registry holding only an incomplete `grass` image; the
`grass` request in the middle of a frame resolves to nothing and the
neighbouring requests are unaffected. -/
theorem c6_not_ready_draw_is_noop_witness :
    drawTile
        (registerImageAsset (initState 800 600 0 0) "grass" ⟨false, 0, 132, 65⟩)
        (some ⟨false, 0, 132, 65⟩) 5 7 = [] ∧
      processRequests
          (registerImageAsset (initState 800 600 0 0) "grass" ⟨false, 0, 132, 65⟩)
          ([⟨"a", 1, 2⟩] ++ ⟨"grass", 5, 7⟩ :: [⟨"b", 3, 4⟩]) =
        processRequests
            (registerImageAsset (initState 800 600 0 0) "grass" ⟨false, 0, 132, 65⟩)
            [⟨"a", 1, 2⟩] ++
          processRequests
            (registerImageAsset (initState 800 600 0 0) "grass" ⟨false, 0, 132, 65⟩)
            [⟨"b", 3, 4⟩] :=
  c6_not_ready_draw_is_noop _ (some ⟨false, 0, 132, 65⟩) 5 7
    [⟨"a", 1, 2⟩] [⟨"b", 3, 4⟩] ⟨"grass", 5, 7⟩
    (Or.inr ⟨⟨false, 0, 132, 65⟩, rfl, Or.inl rfl⟩)
    (by simp [registerImageAsset, initState])

/-- Iterating a body over the index range of a list, reading the list at
each index, is iterating over the list itself. -/
theorem flatMap_range_getD {β : Type} (l : List String) (f : String → List β) :
    (List.range l.length).flatMap (fun i => f (l.getD i "")) = l.flatMap f := by
  induction l with
  | nil => rfl
  | cons a t ih =>
    rw [List.length_cons, List.range_succ_eq_map, List.flatMap_cons]
    simp only [List.flatMap_map, Function.comp_def, List.getD_cons_succ,
      List.getD_cons_zero, ih]
    rfl

/-- C5: for every frame and visible cell, the cell's tile-stack layers are
submitted in stack order; when the cell is the hovered tile the overlay —
`selection` when not pressed, `selection_down` when pressed — is submitted
immediately after layer 0 and before every layer of index ≥ 1, and when
the cell is not hovered the submissions are exactly the stack in order
with no overlay. -/
theorem c5_layer_and_overlay_order (s : EngineState) (x y : ℕ) (a : String)
    (rest : List String) (cx cy : ℚ) :
    ((x : ℤ) = s.hoveredTileX ∧ (y : ℤ) = s.hoveredTileY →
      renderCell s x y (a :: rest) cx cy =
        ⟨a, cx, cy⟩ ::
          ⟨if s.pointerDown = false then "selection" else "selection_down",
            cx, cy⟩ ::
            (rest.map fun nm => ⟨nm, cx, cy⟩)) ∧
      (¬((x : ℤ) = s.hoveredTileX ∧ (y : ℤ) = s.hoveredTileY) →
        renderCell s x y (a :: rest) cx cy =
          (a :: rest).map fun nm => ⟨nm, cx, cy⟩) := by
  have htail :
      (List.range rest.length).flatMap
          (fun i =>
            (⟨(a :: rest).getD (i + 1) "", cx, cy⟩ : DrawReq) ::
              (if i + 1 = 0 ∧ (x : ℤ) = s.hoveredTileX ∧ (y : ℤ) = s.hoveredTileY
                then
                  [⟨if s.pointerDown = false then "selection" else "selection_down",
                    cx, cy⟩]
                else [])) =
        rest.map fun nm => ⟨nm, cx, cy⟩ := by
    have h0 :
        (List.range rest.length).flatMap
            (fun i => [(⟨rest.getD i "", cx, cy⟩ : DrawReq)]) =
          rest.map fun nm => ⟨nm, cx, cy⟩ := by
      rw [flatMap_range_getD rest (fun nm => [DrawReq.mk nm cx cy])]
      exact (List.map_eq_flatMap _ rest).symm
    rw [← h0]
    refine List.flatMap_congr ?_
    intro i _
    simp
  constructor
  · intro hhov
    unfold renderCell
    rw [List.length_cons, List.range_succ_eq_map, List.flatMap_cons]
    simp only [List.flatMap_map, Function.comp_def]
    rw [htail]
    simp [hhov]
  · intro hhov
    unfold renderCell
    rw [List.length_cons, List.range_succ_eq_map, List.flatMap_cons]
    simp only [List.flatMap_map, Function.comp_def]
    rw [htail]
    simp [hhov]

/-- C5 witness: hovered cell (2, 3) with stack `["grass", "road"]` while
pressed, and the non-hovered cell (0, 3) of the same frame. -/
theorem c5_layer_and_overlay_order_witness :
    ((2 : ℤ) = (2 : ℤ) ∧ (3 : ℤ) = (3 : ℤ) →
      renderCell
          { initState 800 600 0 0 with
              hoveredTileX := 2, hoveredTileY := 3, pointerDown := true }
          2 3 ["grass", "road"] 66 33 =
        ⟨"grass", 66, 33⟩ ::
          ⟨if ({ initState 800 600 0 0 with
              hoveredTileX := 2, hoveredTileY := 3,
              pointerDown := true } : EngineState).pointerDown = false
            then "selection" else "selection_down", 66, 33⟩ ::
            (["road"].map fun nm => ⟨nm, 66, 33⟩)) ∧
      (¬((0 : ℤ) = (2 : ℤ) ∧ (3 : ℤ) = (3 : ℤ)) →
        renderCell
            { initState 800 600 0 0 with
                hoveredTileX := 2, hoveredTileY := 3, pointerDown := true }
            0 3 ["grass", "road"] 66 33 =
          (["grass", "road"].map fun nm => ⟨nm, 66, 33⟩)) := by
  constructor
  · intro h
    exact (c5_layer_and_overlay_order
      { initState 800 600 0 0 with
          hoveredTileX := 2, hoveredTileY := 3, pointerDown := true }
      2 3 "grass" ["road"] 66 33).1 (by constructor <;> rfl)
  · intro h
    exact (c5_layer_and_overlay_order
      { initState 800 600 0 0 with
          hoveredTileX := 2, hoveredTileY := 3, pointerDown := true }
      0 3 "grass" ["road"] 66 33).2 (by simp)

/-- The projected tile rectangle `[sx, sx + tileWidth) × [sy, sy + tileHeight)`
shares at least one point with the canvas rectangle `[0, w) × [0, h)`:
the tile overlaps the visible surface. -/
def rectOverlaps (sx sy w h : ℚ) : Prop :=
  ∃ px py : ℚ,
    sx ≤ px ∧ px < sx + tileWidth ∧ 0 ≤ px ∧ px < w ∧
      sy ≤ py ∧ py < sy + tileHeight ∧ 0 ≤ py ∧ py < h

/-- Everything `renderCell` submits for a cell carries that cell's screen
position. -/
theorem mem_renderCell_coords (s : EngineState) (x y : ℕ)
    (stack : List String) (cx cy : ℚ) (req : DrawReq)
    (h : req ∈ renderCell s x y stack cx cy) : req.x = cx ∧ req.y = cy := by
  simp only [renderCell, List.mem_flatMap, List.mem_range, List.mem_cons] at h
  obtain ⟨i, _, hi⟩ := h
  rcases hi with h | h
  · rw [h]; exact ⟨rfl, rfl⟩
  · split at h
    · simp only [List.mem_singleton] at h
      rw [h]; exact ⟨rfl, rfl⟩
    · cases h

/-- A cell in range of the grid whose coordinates pass `isXYVisible` and
whose stack is nonempty has its base layer submitted by the render pass. -/
theorem render_submits_visible_cell (s : EngineState) (tx ty : ℕ)
    (a : String) (rest : List String)
    (htx : tx < s.map.length) (hty : ty < (s.map.getD tx []).length)
    (hstack : (s.map.getD tx []).getD ty [] = a :: rest)
    (hvis : isXYVisible s (tileCoordsToXY tx ty).1 (tileCoordsToXY tx ty).2) :
    DrawReq.mk a (tileCoordsToXY tx ty).1 (tileCoordsToXY tx ty).2 ∈
      render s := by
  simp only [render, List.mem_flatMap, List.mem_range]
  refine ⟨tx, htx, ty, hty, ?_⟩
  rw [if_pos hvis, hstack]
  simp only [renderCell, List.mem_flatMap, List.mem_range, List.mem_cons]
  exact ⟨0, by simp, Or.inl (by simp)⟩

/-- C4 (amended): a cell whose projected rectangle overlaps the surface by
even one point is always submitted (when its stack is nonempty); every
submission the render pass makes belongs to a cell passing `isXYVisible`;
but `isXYVisible` is slightly wider than exact intersection — it also
admits cells with zero-pixel overlap whose rectangle starts exactly at the
canvas's right or bottom edge, so "never submitted when entirely outside"
fails there. -/
theorem c4_culling_amended :
    (∀ (s : EngineState) (x y : ℚ),
        rectOverlaps (x + s.mapOffsetX) (y + s.mapOffsetY)
            s.canvasWidth s.canvasHeight →
          isXYVisible s x y) ∧
      (∀ (s : EngineState) (req : DrawReq), req ∈ render s →
          ∃ tx ty : ℕ, tx < s.map.length ∧
            ty < (s.map.getD tx []).length ∧
            isXYVisible s (tileCoordsToXY tx ty).1 (tileCoordsToXY tx ty).2 ∧
            req.x = (tileCoordsToXY tx ty).1 ∧
            req.y = (tileCoordsToXY tx ty).2) ∧
      ∀ (s : EngineState) (tx ty : ℕ) (a : String) (rest : List String),
        tx < s.map.length → ty < (s.map.getD tx []).length →
        (s.map.getD tx []).getD ty [] = a :: rest →
        isXYVisible s (tileCoordsToXY tx ty).1 (tileCoordsToXY tx ty).2 →
        DrawReq.mk a (tileCoordsToXY tx ty).1 (tileCoordsToXY tx ty).2 ∈
          render s := by
  refine ⟨?_, ?_, ?_⟩
  · rintro s x y ⟨px, py, h1, h2, h3, h4, h5, h6, h7, h8⟩
    refine ⟨by linarith, by linarith, by linarith, by linarith⟩
  · intro s req hreq
    simp only [render, List.mem_flatMap, List.mem_range] at hreq
    obtain ⟨tx, htx, ty, hty, hin⟩ := hreq
    split at hin
    · next hvis =>
      obtain ⟨hx, hy⟩ := mem_renderCell_coords s tx ty _ _ _ req hin
      exact ⟨tx, ty, htx, hty, hvis, hx, hy⟩
    · cases hin
  · exact render_submits_visible_cell

/-- C4 witness: on a 100×100 canvas with no pan, cell (0, 0) of the map
`[[["grass"]]]` overlaps (its rectangle contains the point (0, 0)), is
`isXYVisible`, and its base layer is submitted. -/
theorem c4_culling_amended_witness :
    isXYVisible { initState 100 100 0 0 with map := [[["grass"]]] } 0 0 ∧
      (∃ tx ty : ℕ,
        tx < ({ initState 100 100 0 0 with map := [[["grass"]]] } :
            EngineState).map.length ∧
        ty < (({ initState 100 100 0 0 with map := [[["grass"]]] } :
            EngineState).map.getD tx []).length ∧
        isXYVisible { initState 100 100 0 0 with map := [[["grass"]]] }
          (tileCoordsToXY tx ty).1 (tileCoordsToXY tx ty).2 ∧
        (DrawReq.mk "grass" 0 0).x = (tileCoordsToXY tx ty).1 ∧
        (DrawReq.mk "grass" 0 0).y = (tileCoordsToXY tx ty).2) ∧
      DrawReq.mk "grass" (tileCoordsToXY 0 0).1 (tileCoordsToXY 0 0).2 ∈
        render { initState 100 100 0 0 with map := [[["grass"]]] } := by
  have hvis : isXYVisible { initState 100 100 0 0 with map := [[["grass"]]] }
      (0 : ℚ) (0 : ℚ) := by
    unfold isXYVisible
    norm_num [initState, tileWidth, tileHeight]
  have hc : tileCoordsToXY (0 : ℚ) (0 : ℚ) = (0, 0) := by
    norm_num [tileCoordsToXY]
  have hvis2 : isXYVisible { initState 100 100 0 0 with map := [[["grass"]]] }
      (tileCoordsToXY 0 0).1 (tileCoordsToXY 0 0).2 := by
    rw [hc]
    exact hvis
  have hmem := (c4_culling_amended.2.2)
    { initState 100 100 0 0 with map := [[["grass"]]] } 0 0 "grass" []
    (by simp) (by simp [initState]) (by simp [initState]) (by exact_mod_cast hvis2)
  refine ⟨hvis, ?_, hmem⟩
  exact c4_culling_amended.2.1 _ (DrawReq.mk "grass" 0 0)
    (by simpa [hc] using hmem)

/-- C4 (counterexample): with pan offset (100, 0) on a 100×100 canvas, the
projected rectangle of the single cell (0, 0) — screen position (0, 0), so
`[100, 232) × [0, 65)` after panning — shares no point with the surface
`[0, 100) × [0, 100)`, yet the render pass still submits the cell:
`isXYVisible` accepts a tile whose left edge sits exactly at the canvas
width, refuting "a cell entirely outside the surface is never submitted".
-/
theorem c4_submits_nonoverlapping_cell :
    tileCoordsToXY 0 0 = (0, 0) ∧
      ¬rectOverlaps ((0 : ℚ) + 100) ((0 : ℚ) + 0) 100 100 ∧
      render { initState 100 100 0 0 with
                 map := [[["grass"]]], mapOffsetX := 100 } ≠ [] := by
  refine ⟨by norm_num [tileCoordsToXY], ?_, ?_⟩
  · rintro ⟨px, py, h1, h2, h3, h4, h5, h6, h7, h8⟩
    linarith
  · have hvis : isXYVisible
        { initState 100 100 0 0 with map := [[["grass"]]], mapOffsetX := 100 }
        (tileCoordsToXY (0 : ℕ) (0 : ℕ)).1 (tileCoordsToXY (0 : ℕ) (0 : ℕ)).2 := by
      unfold isXYVisible
      norm_num [initState, tileWidth, tileHeight, tileCoordsToXY]
    have h := render_submits_visible_cell
      { initState 100 100 0 0 with map := [[["grass"]]], mapOffsetX := 100 }
      0 0 "grass" [] (by simp) (by simp [initState]) (by simp [initState]) hvis
    exact List.ne_nil_of_mem h

/-- `handlePointers` only touches the pointer list, the drag origin and
the pan offset: every other field survives. -/
theorem handlePointers_untouched (s : EngineState) (ps : List Pointer) :
    (handlePointers s ps).selectedTileX = s.selectedTileX ∧
      (handlePointers s ps).selectedTileY = s.selectedTileY ∧
      (handlePointers s ps).hoveredTileX = s.hoveredTileX ∧
      (handlePointers s ps).hoveredTileY = s.hoveredTileY ∧
      (handlePointers s ps).pointerDown = s.pointerDown ∧
      (handlePointers s ps).events = s.events ∧
      (handlePointers s ps).emitLog = s.emitLog ∧
      (handlePointers s ps).canvasOffsetLeft = s.canvasOffsetLeft ∧
      (handlePointers s ps).canvasOffsetTop = s.canvasOffsetTop := by
  unfold handlePointers
  dsimp only
  by_cases h1 : s.initialPointers = none ∧ s.pointerDown = true
  · rw [if_pos h1]
    cases hh : ps.head? <;> cases hh2 : s.pointers.head? <;>
      simp [hh, hh2] <;> try split <;> simp
  · rw [if_neg h1]
    cases hh : ps.head? <;> cases hh2 : s.pointers.head? <;>
      simp [hh, hh2] <;> try split <;> simp

/-- A mouse move while the pointer is up, the drag origin cleared, and no
stale pointer list: only the hovered tile changes (and the pointer list is
re-cleared). -/
theorem mouseXY_not_pressed (s : EngineState) (e : MouseEvent)
    (hp : s.pointerDown = false) (hip : s.initialPointers = none)
    (hptr : s.pointers = []) :
    mouseXY s e =
      { s with
          hoveredTileX := (XYToTileCoords
            (e.pageX - s.canvasOffsetLeft - s.mapOffsetX)
            (e.pageY - s.canvasOffsetTop - s.mapOffsetY)).1,
          hoveredTileY := (XYToTileCoords
            (e.pageX - s.canvasOffsetLeft - s.mapOffsetX)
            (e.pageY - s.canvasOffsetTop - s.mapOffsetY)).2 } := by
  unfold mouseXY handlePointers handleTileClick
  dsimp only
  simp [hp, hip, hptr]

/-- Every mouse handler leaves a released state with `initialPointers`
cleared and the pointer list empty. -/
theorem mouseXY_released_clears (s : EngineState) (e : MouseEvent) :
    (mouseXY s e).pointerDown = false →
      (mouseXY s e).initialPointers = none ∧ (mouseXY s e).pointers = [] := by
  unfold mouseXY
  dsimp only
  split
  · next h => intro h2; rw [h2] at h; cases h
  · intro h2; simp

/-- Every touch handler leaves a released state with `initialPointers`
cleared and the pointer list empty. -/
theorem touchXY_released_clears (s : EngineState) (e : TouchEvent) :
    (touchXY s e).pointerDown = false →
      (touchXY s e).initialPointers = none ∧ (touchXY s e).pointers = [] := by
  unfold touchXY
  dsimp only
  split
  · next h => intro h2; rw [h2] at h; cases h
  · intro h2; simp

/-- After any single input event, a state with the pointer up has no drag
origin and no pointer list. -/
theorem step_released_clears (s : EngineState) (ev : InputEvent) :
    (step s ev).pointerDown = false →
      (step s ev).initialPointers = none ∧ (step s ev).pointers = [] := by
  cases ev with
  | mouseDown e => exact mouseXY_released_clears _ e
  | mouseMove e => exact mouseXY_released_clears _ e
  | mouseUp e => exact mouseXY_released_clears _ e
  | touchStart e => exact touchXY_released_clears _ e
  | touchMove e => exact touchXY_released_clears _ e
  | touchEnd e => exact touchXY_released_clears _ e

/-- The released-state invariant holds along every run from a state
satisfying it — in particular from the constructor state. -/
theorem runEvents_released_clears (evs : List InputEvent) (s : EngineState)
    (h0 : s.pointerDown = false →
      s.initialPointers = none ∧ s.pointers = []) :
    (runEvents s evs).pointerDown = false →
      (runEvents s evs).initialPointers = none ∧
        (runEvents s evs).pointers = [] := by
  induction evs generalizing s with
  | nil => exact h0
  | cons ev t ih => exact ih (step s ev) (step_released_clears s ev)

/-- C9: in any state reachable from the constructor state in which the
pointer is not pressed, a mouse-move updates only the hovered tile
indices: the resulting state is the old one with just the hover fields
replaced (by the tile under the pan-adjusted pointer), so the pan offset,
selected tile, pressed flag and subscriber set are unchanged and no
`tileClicked` notification is appended. -/
theorem c9_mousemove_hover_only (bodyW bodyH offsetL offsetT : ℚ)
    (evs : List InputEvent) (s : EngineState) (e : MouseEvent)
    (hs : s = runEvents (initState bodyW bodyH offsetL offsetT) evs)
    (hp : s.pointerDown = false) :
    step s (.mouseMove e) =
      { s with
          hoveredTileX := (XYToTileCoords
            (e.pageX - s.canvasOffsetLeft - s.mapOffsetX)
            (e.pageY - s.canvasOffsetTop - s.mapOffsetY)).1,
          hoveredTileY := (XYToTileCoords
            (e.pageX - s.canvasOffsetLeft - s.mapOffsetX)
            (e.pageY - s.canvasOffsetTop - s.mapOffsetY)).2 } ∧
      (step s (.mouseMove e)).mapOffsetX = s.mapOffsetX ∧
      (step s (.mouseMove e)).mapOffsetY = s.mapOffsetY ∧
      (step s (.mouseMove e)).selectedTileX = s.selectedTileX ∧
      (step s (.mouseMove e)).selectedTileY = s.selectedTileY ∧
      (step s (.mouseMove e)).pointerDown = false ∧
      (step s (.mouseMove e)).events = s.events ∧
      (step s (.mouseMove e)).emitLog = s.emitLog := by
  have hinv : s.initialPointers = none ∧ s.pointers = [] := by
    subst hs
    exact runEvents_released_clears evs _ (fun h => ⟨rfl, rfl⟩) hp
  have hmain : step s (.mouseMove e) =
      { s with
          hoveredTileX := (XYToTileCoords
            (e.pageX - s.canvasOffsetLeft - s.mapOffsetX)
            (e.pageY - s.canvasOffsetTop - s.mapOffsetY)).1,
          hoveredTileY := (XYToTileCoords
            (e.pageX - s.canvasOffsetLeft - s.mapOffsetX)
            (e.pageY - s.canvasOffsetTop - s.mapOffsetY)).2 } :=
    mouseXY_not_pressed s e hp hinv.1 hinv.2
  rw [hmain]
  exact ⟨rfl, rfl, rfl, rfl, rfl, hp, rfl, rfl⟩

/-- C9 witness: the constructor state itself (empty run) and a mouse move
to page point (10, 20). -/
theorem c9_mousemove_hover_only_witness :
    step (initState 800 600 0 0) (.mouseMove ⟨10, 20, 0⟩) =
      { initState 800 600 0 0 with
          hoveredTileX := (XYToTileCoords
            ((10 : ℚ) - (initState 800 600 0 0).canvasOffsetLeft -
              (initState 800 600 0 0).mapOffsetX)
            ((20 : ℚ) - (initState 800 600 0 0).canvasOffsetTop -
              (initState 800 600 0 0).mapOffsetY)).1,
          hoveredTileY := (XYToTileCoords
            ((10 : ℚ) - (initState 800 600 0 0).canvasOffsetLeft -
              (initState 800 600 0 0).mapOffsetX)
            ((20 : ℚ) - (initState 800 600 0 0).canvasOffsetTop -
              (initState 800 600 0 0).mapOffsetY)).2 } ∧
      (step (initState 800 600 0 0) (.mouseMove ⟨10, 20, 0⟩)).mapOffsetX =
        (initState 800 600 0 0).mapOffsetX ∧
      (step (initState 800 600 0 0) (.mouseMove ⟨10, 20, 0⟩)).mapOffsetY =
        (initState 800 600 0 0).mapOffsetY ∧
      (step (initState 800 600 0 0) (.mouseMove ⟨10, 20, 0⟩)).selectedTileX =
        (initState 800 600 0 0).selectedTileX ∧
      (step (initState 800 600 0 0) (.mouseMove ⟨10, 20, 0⟩)).selectedTileY =
        (initState 800 600 0 0).selectedTileY ∧
      (step (initState 800 600 0 0) (.mouseMove ⟨10, 20, 0⟩)).pointerDown =
        false ∧
      (step (initState 800 600 0 0) (.mouseMove ⟨10, 20, 0⟩)).events =
        (initState 800 600 0 0).events ∧
      (step (initState 800 600 0 0) (.mouseMove ⟨10, 20, 0⟩)).emitLog =
        (initState 800 600 0 0).emitLog :=
  c9_mousemove_hover_only 800 600 0 0 [] (initState 800 600 0 0)
    ⟨10, 20, 0⟩ rfl rfl

/-- Mouse handlers with a non-primary button never reach
`handleTileClick`: the notification log is untouched. -/
theorem mouseXY_emit_nonprimary (s : EngineState) (e : MouseEvent)
    (hb : e.button ≠ 0) : (mouseXY s e).emitLog = s.emitLog := by
  have hhp := (handlePointers_untouched s
    [⟨.mouse, e.pageX - s.canvasOffsetLeft, e.pageY - s.canvasOffsetTop⟩]).2.2.2.2.2.2.1
  unfold mouseXY
  dsimp only
  cases hh : (handlePointers s
      [⟨.mouse, e.pageX - s.canvasOffsetLeft,
        e.pageY - s.canvasOffsetTop⟩]).pointers.head? <;>
    simp [hh, hb, hhp] <;> try split <;> simp [hb, hhp]

/-- While the pointer is held down — whichever button started the press —
a mouse move pans the offset by the primary-pointer delta. -/
theorem mouseXY_pans_while_pressed (s : EngineState) (e : MouseEvent)
    (op : Pointer) (rest : List Pointer)
    (hp : s.pointerDown = true) (hptr : s.pointers = op :: rest) :
    (mouseXY s e).mapOffsetX =
      s.mapOffsetX + (e.pageX - s.canvasOffsetLeft - op.x) ∧
    (mouseXY s e).mapOffsetY =
      s.mapOffsetY + (e.pageY - s.canvasOffsetTop - op.y) := by
  unfold mouseXY handlePointers
  dsimp only
  by_cases hip : s.initialPointers = none <;> simp [hp, hptr, hip]

/-- C3 (counterexample): a press of mouse button 2 at (0, 0) followed by a
move to (50, 0) leaves the pan offset changed from 0 to 50 — `mouseDown`
sets the pressed flag for every button, so panning engages for non-primary
buttons too — refuting "other buttons produce hover updates only, leaving
the pan offset unchanged". (No `tileClicked` is emitted, as the claim also
says.) -/
theorem c3_nonprimary_button_pans :
    (initState 800 600 0 0).mapOffsetX = 0 ∧
      (runEvents (initState 800 600 0 0)
          [.mouseDown ⟨0, 0, 2⟩, .mouseMove ⟨50, 0, 0⟩]).mapOffsetX = 50 ∧
      (runEvents (initState 800 600 0 0)
          [.mouseDown ⟨0, 0, 2⟩, .mouseMove ⟨50, 0, 0⟩]).emitLog = [] := by
  refine ⟨rfl, ?_⟩
  simp [runEvents, step, mouseDown, mouseXY, handlePointers,
    handleTileClick, initState]

/-- C3 (amended): click detection engages only for the primary (left)
button — any mouse event whose button is non-primary leaves the
notification log unchanged — but panning engages for any button: while
the pressed flag is set, a mouse move pans the offset by the
primary-pointer delta regardless of which button started the press, so a
non-primary press followed by movement produces hover updates and panning
but emits no `tileClicked`. -/
theorem c3_click_primary_pan_any_button :
    (∀ (s : EngineState) (e : MouseEvent), e.button ≠ 0 →
        (step s (.mouseDown e)).emitLog = s.emitLog ∧
          (step s (.mouseMove e)).emitLog = s.emitLog ∧
          (step s (.mouseUp e)).emitLog = s.emitLog) ∧
      ∀ (s : EngineState) (e : MouseEvent) (op : Pointer)
        (rest : List Pointer),
        s.pointerDown = true → s.pointers = op :: rest →
        (step s (.mouseMove e)).mapOffsetX =
            s.mapOffsetX + (e.pageX - s.canvasOffsetLeft - op.x) ∧
          (step s (.mouseMove e)).mapOffsetY =
            s.mapOffsetY + (e.pageY - s.canvasOffsetTop - op.y) := by
  constructor
  · intro s e hb
    exact ⟨mouseXY_emit_nonprimary _ e hb, mouseXY_emit_nonprimary _ e hb,
      mouseXY_emit_nonprimary _ e hb⟩
  · intro s e op rest hp hptr
    exact mouseXY_pans_while_pressed s e op rest hp hptr

/-- C3 witness: button-2 events on the constructor state never emit, and a
pressed state with primary pointer at (3, 4) pans to the move point. -/
theorem c3_click_primary_pan_any_button_witness :
    ((step (initState 800 600 0 0) (.mouseDown ⟨0, 0, 2⟩)).emitLog =
        (initState 800 600 0 0).emitLog ∧
      (step (initState 800 600 0 0) (.mouseMove ⟨0, 0, 2⟩)).emitLog =
        (initState 800 600 0 0).emitLog ∧
      (step (initState 800 600 0 0) (.mouseUp ⟨0, 0, 2⟩)).emitLog =
        (initState 800 600 0 0).emitLog) ∧
      (step { initState 800 600 0 0 with
                pointerDown := true, pointers := [⟨.mouse, 3, 4⟩] }
          (.mouseMove ⟨50, 10, 2⟩)).mapOffsetX =
          ({ initState 800 600 0 0 with
               pointerDown := true,
               pointers := [⟨.mouse, 3, 4⟩] } : EngineState).mapOffsetX +
            ((50 : ℚ) -
              ({ initState 800 600 0 0 with
                   pointerDown := true,
                   pointers := [⟨.mouse, 3, 4⟩] } :
                 EngineState).canvasOffsetLeft -
              (⟨.mouse, 3, 4⟩ : Pointer).x) ∧
        (step { initState 800 600 0 0 with
                  pointerDown := true, pointers := [⟨.mouse, 3, 4⟩] }
            (.mouseMove ⟨50, 10, 2⟩)).mapOffsetY =
          ({ initState 800 600 0 0 with
               pointerDown := true,
               pointers := [⟨.mouse, 3, 4⟩] } : EngineState).mapOffsetY +
            ((10 : ℚ) -
              ({ initState 800 600 0 0 with
                   pointerDown := true,
                   pointers := [⟨.mouse, 3, 4⟩] } :
                 EngineState).canvasOffsetTop -
              (⟨.mouse, 3, 4⟩ : Pointer).y) :=
  ⟨c3_click_primary_pan_any_button.1 (initState 800 600 0 0) ⟨0, 0, 2⟩
      (by decide),
    c3_click_primary_pan_any_button.2
      { initState 800 600 0 0 with
          pointerDown := true, pointers := [⟨.mouse, 3, 4⟩] }
      ⟨50, 10, 2⟩ ⟨.mouse, 3, 4⟩ [] rfl rfl⟩

/-- C2 (code-bug evaluation): a touch tap — touch-start at page (100, 100)
then touch-end with zero remaining target touches, displacement 0 ≤ 10 —
emits no `tileClicked` at all: on the final touch-end `handlePointers`
replaces the pointer list with the empty `targetTouches` list, so
`pointers[0]` no longer exists and `handleTileClick` is never invoked
(the state is still cleared and released).  The identical mouse sequence —
press (100, 100), release (105, 103), distance √34 ≤ 10 — emits exactly
one `tileClicked` with the tile (1, 1) under the release point, showing
the press/release classification the claim describes is implemented for
mouse input but unreachable for touch input. -/
theorem c2_touch_tap_emits_nothing :
    (runEvents (initState 800 600 0 0)
        [.touchStart ⟨[(100, 100)]⟩, .touchEnd ⟨[]⟩]).emitLog = [] ∧
      (runEvents (initState 800 600 0 0)
        [.touchStart ⟨[(100, 100)]⟩, .touchEnd ⟨[]⟩]).pointerDown = false ∧
      (runEvents (initState 800 600 0 0)
        [.touchStart ⟨[(100, 100)]⟩, .touchEnd ⟨[]⟩]).pointers = [] ∧
      (runEvents (initState 800 600 0 0)
        [.touchStart ⟨[(100, 100)]⟩, .touchEnd ⟨[]⟩]).initialPointers =
        none ∧
      (runEvents (initState 800 600 0 0)
        [.mouseDown ⟨100, 100, 0⟩, .mouseUp ⟨105, 103, 0⟩]).emitLog =
        [((1 : ℤ), (1 : ℤ))] := by
  refine ⟨?_, ?_, ?_, ?_, ?_⟩
  · simp [runEvents, step, touchDown, touchUp, touchXY, handlePointers,
      handleTileClick, initState]
  · simp [runEvents, step, touchDown, touchUp, touchXY, handlePointers,
      handleTileClick, initState]
  · simp [runEvents, step, touchDown, touchUp, touchXY, handlePointers,
      handleTileClick, initState]
  · simp [runEvents, step, touchDown, touchUp, touchXY, handlePointers,
      handleTileClick, initState]
  · simp [runEvents, step, mouseDown, mouseUp, mouseXY, handlePointers,
      handleTileClick, initState, XYToTileCoords, halfTileWidth_eq,
      halfTileHeight_eq]
    norm_num

end Engine
